import Mathlib

/-!
Shallow embedding of `src/food.py` (a food-business finder chaining the
Nominatim geocoder and the Overpass POI service behind an AWS Lambda handler).

Modelling conventions:
* Python dictionaries of tags are association lists `List (String × String)`;
  `dict.get k d` is `tagGet`.
* Coordinates carry no arithmetic in the program (they are only threaded from
  the geocoder into the query string and the output), so `lat`/`lon` are
  modelled as `Int` rather than floating point.
* Each network interaction is an oracle value describing what the transport
  produced (network exception, status code, body shape); the functions are
  translated over these oracles exactly as the Python handles the response.
* `event['body']` is modelled after JSON parsing; the malformed-JSON-body
  path (which the outer `except` turns into a 500) is out of scope of the
  claims and not modelled.
-/

namespace Food

/-- Tag dictionary of a map feature: free-form string keys to string values. -/
abbrev Tags := List (String × String)

/-- Python `tags.get(key, default)`. -/
def tagGet (tags : Tags) (key dflt : String) : String :=
  (tags.lookup key).getD dflt

/-- Whether the tag dictionary has the given key. -/
def hasTag (tags : Tags) (key : String) : Bool :=
  (tags.lookup key).isSome

/-- One Overpass element (`RawFeature`): optional `tags` dictionary, optional
direct `lat`/`lon` (present on node elements), and an optional `center`
coordinate (what Overpass attaches to way/area elements when `out center` is
requested; the Python never reads it). -/
structure RawFeature where
  tags? : Option Tags
  lat? : Option Int
  lon? : Option Int
  center? : Option (Int × Int)
deriving DecidableEq, Repr

/-- The fixed-shape dictionary returned by `format_business`
(src/food.py lines 78-90), as a record. -/
structure Business where
  name : String
  type : String
  cuisine : String
  address : String
  housenumber : String
  city : String
  phone : String
  website : String
  opening_hours : String
  lat? : Option Int
  lon? : Option Int
deriving DecidableEq, Repr

/-- `format_business` (src/food.py lines 74-90): `tags = business.get('tags', {})`
followed by `.get` lookups with sentinel defaults; `type` is
`tags.get('amenity', tags.get('shop', 'N/A'))`; `lat`/`lon` are the direct
`business.get('lat')` / `business.get('lon')` (no `center` access). -/
def format_business (business : RawFeature) : Business :=
  let tags := business.tags?.getD []
  { name := tagGet tags "name" "Unnamed"
    type := tagGet tags "amenity" (tagGet tags "shop" "N/A")
    cuisine := tagGet tags "cuisine" "N/A"
    address := tagGet tags "addr:street" "N/A"
    housenumber := tagGet tags "addr:housenumber" "N/A"
    city := tagGet tags "addr:city" "N/A"
    phone := tagGet tags "phone" "N/A"
    website := tagGet tags "website" "N/A"
    opening_hours := tagGet tags "opening_hours" "N/A"
    lat? := business.lat?
    lon? := business.lon? }

/-- Value of one entry of the dictionary `format_business` returns: a string
field, or a coordinate field that is a number or `None`. -/
inductive FieldVal where
  | str (v : String)
  | coord (v : Option Int)
deriving DecidableEq, Repr

/-- The dictionary `format_business` builds, with its keys in source order
(src/food.py lines 78-90). -/
def businessToDict (b : Business) : List (String × FieldVal) :=
  [("name", .str b.name),
   ("type", .str b.type),
   ("cuisine", .str b.cuisine),
   ("address", .str b.address),
   ("housenumber", .str b.housenumber),
   ("city", .str b.city),
   ("phone", .str b.phone),
   ("website", .str b.website),
   ("opening_hours", .str b.opening_hours),
   ("lat", .coord b.lat?),
   ("lon", .coord b.lon?)]

/-- Modelled from the spec: the keys of the fixed `Business` schema of the
specification data model (name, type, cuisine, address, city, phone, website,
openingHours, coordinate) — the shape the normalized output is claimed to
have, for comparison with `businessToDict`. -/
def specBusinessKeys : List String :=
  ["name", "type", "cuisine", "address", "city", "phone", "website",
   "openingHours", "coordinate"]

/-! ### Geocoder client (`geocode_location`, src/food.py lines 8-37) -/

/-- One candidate of the Nominatim JSON body, already converted the way the
Python converts it (`float(data[0]['lat'])` etc.). -/
structure GeocodeResult where
  lat : Int
  lon : Int
  display_name : String
deriving DecidableEq, Repr

/-- Shape of the geocoder response body as seen by `geocode_location`:
either a body whose parse raises (undecodable JSON, missing keys, unparsable
floats — all caught by the blanket `except`), or a JSON candidate list. -/
inductive GeoBody where
  | notJson
  | jsonList (candidates : List GeocodeResult)
deriving DecidableEq, Repr

/-- What the transport produced for the geocoder call: a raised network
exception, or a response carrying a status code and a body.
`geocode_location` never inspects the status code. -/
inductive GeocodeUpstream where
  | netFailure
  | response (status : Nat) (body : GeoBody)
deriving DecidableEq, Repr

/-- `geocode_location` (src/food.py lines 8-37): any exception (network
failure, undecodable body) returns `None`; an empty candidate list returns
`None`; otherwise the first candidate. The response status is not checked. -/
def geocode_location (g : GeocodeUpstream) : Option GeocodeResult :=
  match g with
  | .netFailure => none
  | .response _ .notJson => none
  | .response _ (.jsonList []) => none
  | .response _ (.jsonList (c :: _)) => some c

/-! ### POI query engine (`get_food_businesses`, src/food.py lines 39-72) -/

/-- The `(around:radius,lat,lon)` spatial filter appended to each clause. -/
def aroundFilter (radius lat lon : Int) : String :=
  "(around:" ++ toString radius ++ "," ++ toString lat ++ "," ++ toString lon ++ ")"

/-- The Overpass QL query string built by `get_food_businesses`
(src/food.py lines 44-52): three `node[...]` union clauses — the amenity
regex, the shop regex, and bare `node["cuisine"]` — with `out body;`. -/
def buildOverpassQuery (radius lat lon : Int) : String :=
  let around := aroundFilter radius lat lon
  "\n    [out:json][timeout:25];\n    (\n      node[\"amenity\"~\"restaurant|cafe|fast_food|bar|pub|food_court|ice_cream|bistro\"]"
    ++ around
    ++ ";\n      node[\"shop\"~\"bakery|butcher|deli|seafood|greengrocer|convenience|supermarket|alcohol|beverages|coffee|confectionery|cheese|chocolate|tea|pastry|spices|organic\"]"
    ++ around
    ++ ";\n      node[\"cuisine\"]"
    ++ around
    ++ ";\n    );\n    out body;\n    "

/-- Substring test on strings (used to state facts about the query text). -/
def strContains (hay needle : String) : Bool :=
  decide (needle.data <:+: hay.data)

/-- The alternatives of the amenity regex of the query (src/food.py line 47). -/
def amenityAlts : List String :=
  ["restaurant", "cafe", "fast_food", "bar", "pub", "food_court", "ice_cream", "bistro"]

/-- The alternatives of the shop regex of the query (src/food.py line 48). -/
def shopAlts : List String :=
  ["bakery", "butcher", "deli", "seafood", "greengrocer", "convenience",
   "supermarket", "alcohol", "beverages", "coffee", "confectionery", "cheese",
   "chocolate", "tea", "pastry", "spices", "organic"]

/-- Overpass `~"a|b|c"` tag matching: an unanchored regex of literal
alternatives matches a value iff some alternative occurs in it as a
substring. -/
def regexAltMatch (alts : List String) (v : String) : Bool :=
  alts.any (fun a => strContains v a)

/-- Tag-level selection semantics of the query built by `get_food_businesses`:
the union of its three clauses (amenity regex, shop regex, any `cuisine` tag).
The spatial `(around:radius,lat,lon)` filter is identical on all three clauses
and is factored out: this predicate says which features **inside the radius**
the query requests. -/
def overpassTagSelects (tags : Tags) : Bool :=
  (match tags.lookup "amenity" with
   | some v => regexAltMatch amenityAlts v
   | none => false)
  || (match tags.lookup "shop" with
      | some v => regexAltMatch shopAlts v
      | none => false)
  || hasTag tags "cuisine"

/-- Shape of the Overpass response body as seen by `get_food_businesses`:
undecodable JSON (`json.loads` raises, caught), a JSON value that is not a
dictionary (`data.get` raises, caught), or a dictionary with an optional
`elements` list (`data.get('elements', [])`). -/
inductive PoiBody where
  | notJson
  | jsonNonDict
  | jsonDict (elements? : Option (List RawFeature))
deriving DecidableEq, Repr

/-- What the transport produced for the Overpass call. -/
inductive PoiUpstream where
  | netFailure
  | response (status : Nat) (body : PoiBody)
deriving DecidableEq, Repr

/-- `get_food_businesses` (src/food.py lines 39-72): builds the query, posts
it, and degrades every failure to `[]` — a raised exception, a status other
than 200, an undecodable body, a non-dictionary body, or a missing
`elements` key. On success it returns `data.get('elements', [])`. -/
def get_food_businesses (lat lon radius : Int) (poi : PoiUpstream) : List RawFeature :=
  let _query := buildOverpassQuery radius lat lon
  match poi with
  | .netFailure => []
  | .response status body =>
    if status ≠ 200 then []
    else
      match body with
      | .notJson => []
      | .jsonNonDict => []
      | .jsonDict none => []
      | .jsonDict (some es) => es

/-! ### Radius validation and input parsing (`lambda_handler`, lines 116-151) -/

/-- A radius value as it can arrive from the query string or JSON body:
an integer, a string, or `None`/missing-shaped values. -/
inductive RadiusInput where
  | rInt (n : Int)
  | rStr (s : String)
  | rNone
deriving DecidableEq, Repr

/-- Whitespace stripped by Python `int()` around a numeric string. -/
def isPyWS (c : Char) : Bool :=
  c == ' ' || c == '\t' || c == '\n' || c == '\r'

/-- Value of a nonempty digit string. -/
def digitsVal (cs : List Char) : Nat :=
  cs.foldl (fun acc c => acc * 10 + (c.toNat - 48)) 0

/-- Parse a nonempty all-digit character list. -/
def parseUnsigned (cs : List Char) : Option Nat :=
  if !cs.isEmpty && cs.all Char.isDigit then some (digitsVal cs) else none

/-- Python `int(s)` on a string: strip surrounding whitespace, optional sign,
then a nonempty digit run; anything else raises `ValueError` (here `none`).
(Underscore digit separators are not modelled.) -/
def pyIntOfStr (s : String) : Option Int :=
  let stripped := ((s.data.dropWhile isPyWS).reverse.dropWhile isPyWS).reverse
  match stripped with
  | '+' :: rest => (parseUnsigned rest).map Int.ofNat
  | '-' :: rest => (parseUnsigned rest).map (fun n => -(Int.ofNat n))
  | rest => (parseUnsigned rest).map Int.ofNat

/-- Python `int(radius)` over the modelled input shapes: an int is itself, a
string is parsed, `None` raises `TypeError` (here `none`). -/
def pyInt : RadiusInput → Option Int
  | .rInt n => some n
  | .rStr s => pyIntOfStr s
  | .rNone => none

/-- Radius validation (src/food.py lines 146-151): `int(radius)`, replaced by
1000 when conversion raises or the converted value is outside [100, 5000]. -/
def validate_radius (r : RadiusInput) : Int :=
  match pyInt r with
  | some n => if n < 100 ∨ n > 5000 then 1000 else n
  | none => 1000

/-- Python truthiness of the `location` variable: `None` and the empty string
are falsy, every other string (whitespace-only included) is truthy. -/
def truthy : Option String → Bool
  | none => false
  | some s => s ≠ ""

/-- The Lambda event, with `queryStringParameters` and the (already
JSON-parsed) body projected to the two fields the handler reads. -/
structure Event where
  qpLocation : Option String
  qpRadius : Option RadiusInput
  bodyLocation : Option String
  bodyRadius : Option RadiusInput
deriving DecidableEq, Repr

/-- Input parsing (src/food.py lines 118-131): take `location` and `radius`
from the query string (radius defaulting to 1000); if `location` is falsy,
re-read both from the body, the body radius defaulting to the query value. -/
def parseInput (e : Event) : Option String × RadiusInput :=
  let location := e.qpLocation
  let radius := (e.qpRadius).getD (RadiusInput.rInt 1000)
  if truthy location then (location, radius)
  else
    (e.bodyLocation, (e.bodyRadius).getD radius)

/-! ### Orchestration (`lambda_handler`, src/food.py lines 92-208) -/

/-- `le` used to sort the formatted list: ascending by `name.lower()`. -/
def nameKeyLE (a b : Business) : Bool :=
  decide (a.name.toLower ≤ b.name.toLower)

/-- `formatted.sort(key=lambda x: x['name'].lower())` (src/food.py line 173):
a stable ascending sort by the lower-cased name. Python's list sort is
stable, so any stable sort under the same total preorder computes the same
list; `List.mergeSort` is that stable sort. -/
def sort_businesses (l : List Business) : List Business :=
  l.mergeSort nameKeyLE

/-- Observable outcome of one `lambda_handler` run: the status code, whether
each upstream was contacted, the radius passed to `get_food_businesses`
(when it was called), and the formatted business list of a 200 body. -/
structure HandlerResult where
  statusCode : Nat
  geocodeCalled : Bool
  poiCalled : Bool
  radiusUsed : Option Int
  businesses : List Business
deriving DecidableEq, Repr

/-- `lambda_handler` (src/food.py lines 92-208) over the two transport
oracles: parse input; `if not location` return 400; validate the radius;
geocode (a `None` result returns 404); fetch businesses; format and sort;
return 200. -/
def lambda_handler (e : Event) (geo : GeocodeUpstream) (poi : PoiUpstream) : HandlerResult :=
  let location := (parseInput e).1
  let radiusIn := (parseInput e).2
  if !truthy location then
    { statusCode := 400, geocodeCalled := false, poiCalled := false,
      radiusUsed := none, businesses := [] }
  else
    let radius := validate_radius radiusIn
    match geocode_location geo with
    | none =>
      { statusCode := 404, geocodeCalled := true, poiCalled := false,
        radiusUsed := none, businesses := [] }
    | some coords =>
      let businesses := get_food_businesses coords.lat coords.lon radius poi
      let formatted := businesses.map format_business
      let sorted := sort_businesses formatted
      { statusCode := 200, geocodeCalled := true, poiCalled := true,
        radiusUsed := some radius, businesses := sorted }

end Food

namespace Food

/-! ### Helper lemmas -/

theorem strContains_refl (s : String) : strContains s s = true := by
  simp [strContains, List.infix_refl]

/-! ### Claims -/

/-- C1 counterexample: a geocoder network failure produces the same `None`
outcome as an empty candidate list, and the handler surfaces it as a 404
(`LocationNotFound`), not a 500 (`InternalError`) — refuting the claim that a
transport fault is distinct from `NotFound` and surfaced as `InternalError`. -/
theorem geocode_transport_failure_surfaced_as_404 :
    geocode_location .netFailure = none ∧
    geocode_location (.response 200 (.jsonList [])) = none ∧
    (lambda_handler ⟨some "Cork City", none, none, none⟩ .netFailure
        (.response 200 (.jsonDict (some [])))).statusCode = 404 ∧
    (lambda_handler ⟨some "Cork City", none, none, none⟩ .netFailure
        (.response 200 (.jsonDict (some [])))).statusCode ≠ 500 := by
  decide

/-- C1 (amended): `geocode_location` returns `None` for a network failure and
for a malformed body alike — the very outcome that signals "no match" — and
the handler surfaces every geocode failure, transport failures included, as
404 (`LocationNotFound`), never as 500 (`InternalError`). -/
theorem geocode_transport_conflated_as_not_found (g : GeocodeUpstream) (st : Nat)
    (e : Event) (poi : PoiUpstream)
    (hg : g = .netFailure ∨ g = .response st .notJson)
    (hloc : truthy (parseInput e).1 = true) :
    geocode_location g = none ∧
    (lambda_handler e g poi).statusCode = 404 ∧
    (lambda_handler e g poi).statusCode ≠ 500 := by
  have hnone : geocode_location g = none := by
    rcases hg with h | h <;> subst h <;> rfl
  refine ⟨hnone, ?_, ?_⟩ <;> simp [lambda_handler, hloc, hnone]

/-- Witness for the C1 amended theorem at a concrete event and failure. -/
theorem geocode_transport_conflated_as_not_found_witness :
    geocode_location .netFailure = none ∧
    (lambda_handler ⟨some "Cork City", none, none, none⟩ .netFailure
        .netFailure).statusCode = 404 ∧
    (lambda_handler ⟨some "Cork City", none, none, none⟩ .netFailure
        .netFailure).statusCode ≠ 500 :=
  geocode_transport_conflated_as_not_found .netFailure 0
    ⟨some "Cork City", none, none, none⟩ .netFailure (Or.inl rfl) (by decide)

set_option maxRecDepth 40000 in
/-- C2: evaluation at the failing input. The query built by
`get_food_businesses` contains no `way` clause and no `out center` directive,
and `format_business` on a feature carrying only a `center` coordinate (as an
area/way feature would) yields null `lat`/`lon` — the code never recovers the
centroid, contradicting the claimed coordinate-resolution policy. -/
theorem overpass_query_omits_way_and_center :
    strContains (buildOverpassQuery 1000 51 (-8)) "way" = false ∧
    strContains (buildOverpassQuery 1000 51 (-8)) "out center" = false ∧
    (format_business ⟨some [("amenity", "restaurant"), ("name", "The Quay")],
        none, none, some (51, -8)⟩).lat? = none ∧
    (format_business ⟨some [("amenity", "restaurant"), ("name", "The Quay")],
        none, none, some (51, -8)⟩).lon? = none := by
  decide

/-- C3 counterexample: a feature whose tags match neither the amenity nor the
shop allow-list (it has neither tag) is nevertheless requested by the query,
via its third clause `node["cuisine"]`. -/
theorem cuisine_only_feature_selected :
    overpassTagSelects [("cuisine", "pizza")] = true ∧
    ([("cuisine", "pizza")] : Tags).lookup "amenity" = none ∧
    ([("cuisine", "pizza")] : Tags).lookup "shop" = none := by
  decide

/-- C3 (amended): the query selects exactly the in-radius features whose
amenity tag matches the eatery alternation, whose shop tag matches the
food-retail alternation, or that carry a `cuisine` tag at all; every exact
member of either allow-list is selected. -/
theorem overpassTagSelects_characterization (tags : Tags) :
    (overpassTagSelects tags = true ↔
      (∃ v, tags.lookup "amenity" = some v ∧ regexAltMatch amenityAlts v = true) ∨
      (∃ v, tags.lookup "shop" = some v ∧ regexAltMatch shopAlts v = true) ∨
      hasTag tags "cuisine" = true) ∧
    (∀ v, tags.lookup "amenity" = some v → v ∈ amenityAlts →
      overpassTagSelects tags = true) ∧
    (∀ v, tags.lookup "shop" = some v → v ∈ shopAlts →
      overpassTagSelects tags = true) := by
  refine ⟨?_, ?_, ?_⟩
  · unfold overpassTagSelects
    rcases ha : tags.lookup "amenity" with _ | va <;>
      rcases hs : tags.lookup "shop" with _ | vs <;>
        simp [ha, hs, or_assoc]
  · intro v hv hmem
    have hm : regexAltMatch amenityAlts v = true :=
      List.any_eq_true.mpr ⟨v, hmem, strContains_refl v⟩
    unfold overpassTagSelects
    rw [hv]
    simp [hm]
  · intro v hv hmem
    have hm : regexAltMatch shopAlts v = true :=
      List.any_eq_true.mpr ⟨v, hmem, strContains_refl v⟩
    unfold overpassTagSelects
    rw [hv]
    rcases tags.lookup "amenity" with _ | va <;> simp [hm]

/-- Witness for the C3 amended theorem: an exact amenity allow-list member is
selected. -/
theorem overpassTagSelects_characterization_witness :
    overpassTagSelects [("amenity", "cafe")] = true :=
  (overpassTagSelects_characterization [("amenity", "cafe")]).2.1 "cafe"
    (by decide) (by decide)

/-- C4: every POI upstream failure — raised network exception, status other
than 200, undecodable or non-dictionary body, missing `elements` — degrades
to the empty list, and the handler then still answers 200 with zero
businesses rather than an error. -/
theorem poi_failures_degrade_to_empty (lat lon radius : Int) (s : Nat) (b : PoiBody)
    (e : Event) (g : GeocodeUpstream) (c : GeocodeResult)
    (hs : s ≠ 200) (hloc : truthy (parseInput e).1 = true)
    (hg : geocode_location g = some c) :
    get_food_businesses lat lon radius .netFailure = [] ∧
    get_food_businesses lat lon radius (.response s b) = [] ∧
    get_food_businesses lat lon radius (.response 200 .notJson) = [] ∧
    get_food_businesses lat lon radius (.response 200 .jsonNonDict) = [] ∧
    get_food_businesses lat lon radius (.response 200 (.jsonDict none)) = [] ∧
    (lambda_handler e g .netFailure).statusCode = 200 ∧
    (lambda_handler e g .netFailure).businesses = [] := by
  refine ⟨rfl, ?_, rfl, rfl, rfl, ?_, ?_⟩
  · simp [get_food_businesses, hs]
  · simp [lambda_handler, hloc, hg]
  · simp [lambda_handler, hloc, hg, get_food_businesses, sort_businesses]

/-- Witness for C4 at concrete failures and a concrete successful geocode. -/
theorem poi_failures_degrade_to_empty_witness :
    get_food_businesses 51 (-8) 1000 .netFailure = [] ∧
    get_food_businesses 51 (-8) 1000 (.response 500 .notJson) = [] ∧
    get_food_businesses 51 (-8) 1000 (.response 200 .notJson) = [] ∧
    get_food_businesses 51 (-8) 1000 (.response 200 .jsonNonDict) = [] ∧
    get_food_businesses 51 (-8) 1000 (.response 200 (.jsonDict none)) = [] ∧
    (lambda_handler ⟨some "Cork City", none, none, none⟩
        (.response 200 (.jsonList [⟨51, -8, "Cork, Ireland"⟩]))
        .netFailure).statusCode = 200 ∧
    (lambda_handler ⟨some "Cork City", none, none, none⟩
        (.response 200 (.jsonList [⟨51, -8, "Cork, Ireland"⟩]))
        .netFailure).businesses = [] :=
  poi_failures_degrade_to_empty 51 (-8) 1000 500 .notJson
    ⟨some "Cork City", none, none, none⟩
    (.response 200 (.jsonList [⟨51, -8, "Cork, Ireland"⟩]))
    ⟨51, -8, "Cork, Ireland"⟩ (by decide) (by decide) (by decide)

end Food

namespace Food

/-- C5 counterexample: the string "500" is not an integer, yet the code
converts it with `int()` and uses 500 rather than substituting the default
1000 — refuting "every radius input that is not an integer in [100, 5000]
gets the default". -/
theorem string_radius_not_defaulted :
    validate_radius (.rStr "500") = 500 ∧ (500 : Int) ≠ 1000 := by
  decide

/-- C5 (amended): a radius whose `int()` conversion fails (non-numeric
string, `None`/missing) or converts to a value outside [100, 5000] is
replaced by 1000; a radius whose conversion succeeds in range — numeric
strings included — is used at its converted value; and with a truthy
location the handler never answers 400, so the radius alone never causes a
validation error. -/
theorem validate_radius_policy (r : RadiusInput) (n : Int)
    (e : Event) (g : GeocodeUpstream) (poi : PoiUpstream)
    (hloc : truthy (parseInput e).1 = true) :
    (pyInt r = none → validate_radius r = 1000) ∧
    (pyInt r = some n → (n < 100 ∨ n > 5000) → validate_radius r = 1000) ∧
    (pyInt r = some n → 100 ≤ n → n ≤ 5000 → validate_radius r = n) ∧
    (lambda_handler e g poi).statusCode ≠ 400 := by
  refine ⟨?_, ?_, ?_, ?_⟩
  · intro h
    simp [validate_radius, h]
  · intro h hout
    unfold validate_radius
    rw [h]
    simp [hout]
  · intro h h1 h2
    have hno : ¬(n < 100 ∨ n > 5000) := by omega
    unfold validate_radius
    rw [h]
    simp [hno]
  · rcases hg : geocode_location g with _ | c <;>
      simp [lambda_handler, hloc, hg]

/-- Witness for the C5 amended theorem at concrete radius inputs. -/
theorem validate_radius_policy_witness :
    validate_radius (.rStr "abc") = 1000 ∧
    validate_radius (.rInt 50) = 1000 ∧
    validate_radius (.rInt 500) = 500 ∧
    (lambda_handler ⟨some "Cork City", none, none, none⟩ .netFailure
        .netFailure).statusCode ≠ 400 :=
  ⟨(validate_radius_policy (.rStr "abc") 0 ⟨some "Cork City", none, none, none⟩
      .netFailure .netFailure (by decide)).1 (by decide),
   (validate_radius_policy (.rInt 50) 50 ⟨some "Cork City", none, none, none⟩
      .netFailure .netFailure (by decide)).2.1 (by decide) (by decide),
   (validate_radius_policy (.rInt 500) 500 ⟨some "Cork City", none, none, none⟩
      .netFailure .netFailure (by decide)).2.2.1 (by decide) (by decide) (by decide),
   (validate_radius_policy (.rInt 500) 500 ⟨some "Cork City", none, none, none⟩
      .netFailure .netFailure (by decide)).2.2.2⟩

/-- C6 counterexample: a whitespace-only location (" ") is truthy for
`if not location`, so the handler does contact the geocoder instead of
returning a 400 validation error. -/
theorem whitespace_location_reaches_geocoder :
    (lambda_handler ⟨some " ", none, none, none⟩ .netFailure
        .netFailure).geocodeCalled = true ∧
    (lambda_handler ⟨some " ", none, none, none⟩ .netFailure
        .netFailure).statusCode ≠ 400 := by
  decide

/-- C6 (amended): when the effective location is missing or the empty string
(what `if not location` catches), the handler returns 400 and contacts
neither the geocoder nor the POI service; whitespace-only strings are not
caught by this check and are sent upstream. -/
theorem empty_location_returns_400_before_network (e : Event)
    (g : GeocodeUpstream) (poi : PoiUpstream)
    (h : truthy (parseInput e).1 = false) :
    (lambda_handler e g poi).statusCode = 400 ∧
    (lambda_handler e g poi).geocodeCalled = false ∧
    (lambda_handler e g poi).poiCalled = false := by
  refine ⟨?_, ?_, ?_⟩ <;> simp [lambda_handler, h]

/-- Witness for the C6 amended theorem: empty-string location. -/
theorem empty_location_returns_400_before_network_witness :
    (lambda_handler ⟨some "", none, none, none⟩ .netFailure
        .netFailure).statusCode = 400 ∧
    (lambda_handler ⟨some "", none, none, none⟩ .netFailure
        .netFailure).geocodeCalled = false ∧
    (lambda_handler ⟨some "", none, none, none⟩ .netFailure
        .netFailure).poiCalled = false :=
  empty_location_returns_400_before_network ⟨some "", none, none, none⟩
    .netFailure .netFailure (by decide)

/-- C8 counterexample: the normalized record carries a `housenumber` entry
(value "N/A") — a field beyond the fixed Business schema the claim allows. -/
theorem format_business_emits_housenumber :
    (businessToDict (format_business ⟨some [], none, none, none⟩)).lookup
        "housenumber" = some (.str "N/A") ∧
    "housenumber" ∉ specBusinessKeys := by
  decide

/-- C8 (amended): an empty tag dictionary normalizes to the all-sentinel
record — name "Unnamed", every other textual field "N/A" — whose dictionary
has exactly the eleven keys the code writes: the eight claimed string fields
plus `housenumber`, with the coordinate as separate null `lat`/`lon`
entries. -/
theorem format_business_empty_tags :
    format_business ⟨some [], none, none, none⟩ =
      { name := "Unnamed", type := "N/A", cuisine := "N/A", address := "N/A",
        housenumber := "N/A", city := "N/A", phone := "N/A", website := "N/A",
        opening_hours := "N/A", lat? := none, lon? := none } ∧
    (businessToDict (format_business ⟨some [], none, none, none⟩)).map
        Prod.fst =
      ["name", "type", "cuisine", "address", "housenumber", "city", "phone",
       "website", "opening_hours", "lat", "lon"] := by
  decide

/-- C9 counterexample: a feature whose `name` tag is present but empty flows
through the pipeline into an output Business whose name is the empty
string. -/
theorem empty_name_tag_reaches_output :
    (format_business ⟨some [("name", "")], none, none, none⟩).name = "" ∧
    (lambda_handler ⟨some "Cork City", none, none, none⟩
        (.response 200 (.jsonList [⟨51, -8, "Cork, Ireland"⟩]))
        (.response 200 (.jsonDict (some
          [⟨some [("name", ""), ("amenity", "cafe")], some 51, some (-8),
            none⟩])))).businesses.map Business.name = [""] := by
  constructor
  · rfl
  · have hb : (lambda_handler ⟨some "Cork City", none, none, none⟩
        (.response 200 (.jsonList [⟨51, -8, "Cork, Ireland"⟩]))
        (.response 200 (.jsonDict (some
          [⟨some [("name", ""), ("amenity", "cafe")], some 51, some (-8),
            none⟩])))).businesses =
        sort_businesses [format_business
          ⟨some [("name", ""), ("amenity", "cafe")], some 51, some (-8),
            none⟩] := rfl
    rw [hb]
    simp only [sort_businesses, List.mergeSort_singleton]
    rfl

/-- C9 (amended): `name` falls back to "Unnamed" exactly when the name tag
is absent, and the output name is non-empty provided any present name tag
value is non-empty — the code does not guard against an empty tag value. -/
theorem business_name_fallback (f : RawFeature)
    (h : ∀ v, (f.tags?.getD []).lookup "name" = some v → v ≠ "") :
    (format_business f).name ≠ "" ∧
    ((f.tags?.getD []).lookup "name" = none →
      (format_business f).name = "Unnamed") := by
  constructor
  · rcases hn : (f.tags?.getD []).lookup "name" with _ | v
    · have he : (format_business f).name = "Unnamed" := by
        simp [format_business, tagGet, hn]
      rw [he]
      decide
    · have he : (format_business f).name = v := by
        simp [format_business, tagGet, hn]
      rw [he]
      exact h v hn
  · intro hn
    simp [format_business, tagGet, hn]

/-- Witness for the C9 amended theorem: a feature with no tags. -/
theorem business_name_fallback_witness :
    (format_business ⟨some [], none, none, none⟩).name ≠ "" ∧
    (((RawFeature.mk (some []) none none none).tags?.getD []).lookup "name" = none →
      (format_business ⟨some [], none, none, none⟩).name = "Unnamed") :=
  business_name_fallback ⟨some [], none, none, none⟩
    (fun v hv => by simp at hv)

/-- C10: a radius arriving as a numeric string whose value lies in
[100, 5000] is converted by `int()` and used as the effective query radius,
not replaced by the default 1000. -/
theorem string_radius_in_range_used (s : String) (n : Int) (loc : String)
    (g : GeocodeUpstream) (c : GeocodeResult) (poi : PoiUpstream)
    (hs : pyIntOfStr s = some n) (h1 : 100 ≤ n) (h2 : n ≤ 5000)
    (hloc : loc ≠ "") (hg : geocode_location g = some c) :
    validate_radius (.rStr s) = n ∧
    (lambda_handler ⟨some loc, some (.rStr s), none, none⟩ g
        poi).radiusUsed = some n := by
  have hno : ¬(n < 100 ∨ n > 5000) := by omega
  have hv : validate_radius (.rStr s) = n := by
    unfold validate_radius
    simp only [pyInt]
    rw [hs]
    simp [hno]
  refine ⟨hv, ?_⟩
  have hl : truthy (parseInput ⟨some loc, some (.rStr s), none, none⟩).1 = true := by
    simp [parseInput, truthy, hloc]
  simp [lambda_handler, hl, hg, parseInput, truthy, hloc, hv]

/-- Witness for C10: the query-string radius "500". -/
theorem string_radius_in_range_used_witness :
    validate_radius (.rStr "500") = 500 ∧
    (lambda_handler ⟨some "Cork City", some (.rStr "500"), none, none⟩
        (.response 200 (.jsonList [⟨51, -8, "Cork, Ireland"⟩]))
        (.response 200 (.jsonDict (some [])))).radiusUsed = some 500 :=
  string_radius_in_range_used "500" 500 "Cork City"
    (.response 200 (.jsonList [⟨51, -8, "Cork, Ireland"⟩]))
    ⟨51, -8, "Cork, Ireland"⟩
    (.response 200 (.jsonDict (some []))) (by decide) (by decide) (by decide)
    (by decide) (by decide)

end Food

namespace Food

theorem nameKeyLE_trans (a b c : Business) :
    nameKeyLE a b → nameKeyLE b c → nameKeyLE a c := by
  simp only [nameKeyLE, decide_eq_true_eq]
  exact le_trans

theorem nameKeyLE_total (a b : Business) : nameKeyLE a b || nameKeyLE b a := by
  simp only [nameKeyLE, Bool.or_eq_true, decide_eq_true_eq]
  exact le_total _ _

/-- C7: the sort applied by the handler is ascending by the lower-cased name
(case-insensitive), it permutes the input, and it is stable: for every key,
the sublist of businesses with that lower-cased name is unchanged, so
businesses whose names are equal up to case keep their original relative
order; consequently the handler's output list is always sorted this way. -/
theorem output_sorted_case_insensitive_stable (l : List Business) (k : String)
    (e : Event) (g : GeocodeUpstream) (poi : PoiUpstream) :
    (sort_businesses l).Pairwise
      (fun a b => a.name.toLower ≤ b.name.toLower) ∧
    (sort_businesses l).filter (fun b => b.name.toLower == k) =
      l.filter (fun b => b.name.toLower == k) ∧
    List.Perm (sort_businesses l) l ∧
    (lambda_handler e g poi).businesses.Pairwise
      (fun a b => a.name.toLower ≤ b.name.toLower) := by
  have sorted : ∀ m : List Business,
      (sort_businesses m).Pairwise
        (fun a b => a.name.toLower ≤ b.name.toLower) := by
    intro m
    have h := List.sorted_mergeSort nameKeyLE_trans nameKeyLE_total m
    exact h.imp (fun hab => by
      simpa only [nameKeyLE, decide_eq_true_eq] using hab)
  have stable : ∀ (m : List Business) (key : String),
      (sort_businesses m).filter (fun b => b.name.toLower == key) =
        m.filter (fun b => b.name.toLower == key) := by
    intro m key
    have hpair : (m.filter (fun b => b.name.toLower == key)).Pairwise
        (fun a b => nameKeyLE a b = true) := by
      apply List.pairwise_of_forall_mem_list
      intro a ha b hb
      have ha3 : a.name.toLower = key := by
        simpa using (List.mem_filter.mp ha).2
      have hb3 : b.name.toLower = key := by
        simpa using (List.mem_filter.mp hb).2
      simp [nameKeyLE, ha3, hb3]
    have hsub : List.Sublist (m.filter (fun b => b.name.toLower == key))
        (List.mergeSort m nameKeyLE) :=
      List.sublist_mergeSort nameKeyLE_trans nameKeyLE_total hpair
        (List.filter_sublist m)
    have hidem : (m.filter (fun b => b.name.toLower == key)).filter
        (fun b => b.name.toLower == key) =
        m.filter (fun b => b.name.toLower == key) :=
      List.filter_eq_self.mpr (fun a ha => (List.mem_filter.mp ha).2)
    have hsub2 : List.Sublist (m.filter (fun b => b.name.toLower == key))
        ((List.mergeSort m nameKeyLE).filter (fun b => b.name.toLower == key)) := by
      have h2 := hsub.filter (fun b => b.name.toLower == key)
      rwa [hidem] at h2
    have hperm : List.Perm ((List.mergeSort m nameKeyLE).filter
        (fun b => b.name.toLower == key))
        (m.filter (fun b => b.name.toLower == key)) :=
      (List.mergeSort_perm m nameKeyLE).filter (fun b => b.name.toLower == key)
    have hlen := hperm.length_eq.symm
    have heq := hsub2.eq_of_length hlen
    simpa only [sort_businesses] using heq.symm
  refine ⟨sorted l, stable l k, ?_, ?_⟩
  · simpa only [sort_businesses] using List.mergeSort_perm l nameKeyLE
  · cases hl : truthy (parseInput e).1 with
    | false => simp [lambda_handler, hl]
    | true =>
      rcases hg : geocode_location g with _ | c
      · simp [lambda_handler, hl, hg]
      · have hb : (lambda_handler e g poi).businesses =
            sort_businesses ((get_food_businesses c.lat c.lon
              (validate_radius (parseInput e).2) poi).map format_business) := by
          simp [lambda_handler, hl, hg]
        rw [hb]
        exact sorted _

end Food
